import Mathlib

/-!
Verification of the resilient request subsystem of a ServiceNow Table API
client: the retry/backoff policy (`shouldRetry`, `calculateDelay`,
`withRetry` from `src/utils/retry.ts`), the authentication-header builder
(`ServiceNowClient.buildAuthHeader`) and the query-string builder
(`ServiceNowClient.buildQueryString`).

JavaScript numbers are modelled as exact rationals (`ℚ`) where arithmetic
matters (delays, retry-after hints) and as `Int` for HTTP status codes and
integral query parameters.  `Math.random()` is modelled as an explicit
stream of draws in `[0, 1]` passed to the retry loop.  Fallible paths
(`throw`) are modelled with `Except` / explicit outcome constructors.
-/

namespace SNClient

/-! ## `src/utils/retry.ts` -/

/-- Retry configuration (interface `RetryOptions` merged with
`DEFAULT_OPTIONS`): the defaults are `maxAttempts = 5`,
`baseDelayMs = 500`, `factor = 2`, `jitterPercent = 15`. -/
structure RetryOptions where
  maxAttempts : Nat := 5
  baseDelayMs : ℚ := 500
  factor : ℚ := 2
  jitterPercent : ℚ := 15

/-- Embedding of `shouldRetry` from `src/utils/retry.ts`:
`statusCode === 429 || (statusCode >= 500 && statusCode < 600)`. -/
def shouldRetry (statusCode : Int) : Bool :=
  statusCode == 429 || (statusCode ≥ 500 && statusCode < 600)

/-- Embedding of `calculateDelay` from `src/utils/retry.ts`.  `rand` is the
value returned by `Math.random()` for this call. -/
def calculateDelay (attempt : Nat) (options : RetryOptions) (rand : ℚ) : ℚ :=
  let exponentialDelay := options.baseDelayMs * options.factor ^ (attempt - 1)
  let jitter := (exponentialDelay * options.jitterPercent) / 100
  let jitterAmount := (rand * 2 - 1) * jitter
  max 0 (exponentialDelay + jitterAmount)

/-- The shape of a JavaScript error value as probed by `withRetry`: an
optional `statusCode` field, an optional `status` field, an optional
`retryAfter` field (seconds), plus the message and response body, which the
retry loop never touches. -/
structure JsError where
  statusCode : Option Int := none
  status : Option Int := none
  retryAfter : Option ℚ := none
  message : String := ""
  response : Option String := none
deriving DecidableEq

/-- The duck-typed field probing in `withRetry`'s catch block: if the error
has a `statusCode` field, use it and also read `retryAfter`; otherwise, if
it has a `status` field, use that and leave `retryAfter` undefined. -/
def extractStatus (e : JsError) : Option Int × Option ℚ :=
  match e.statusCode with
  | some sc => (some sc, e.retryAfter)
  | none =>
    match e.status with
    | some s => (some s, none)
    | none => (none, none)

/-- The guard `statusCode !== undefined && !shouldRetry(statusCode)` in
`withRetry`. -/
def nonRetryable : Option Int → Bool
  | none => false
  | some sc => !(shouldRetry sc)

/-- The delay selection in `withRetry`: honour `retryAfter` (seconds, times
1000) when the status is 429 and the hint is defined, otherwise use the
jittered exponential backoff. -/
def nextDelay (statusCode : Option Int) (retryAfter : Option ℚ)
    (attempt : Nat) (options : RetryOptions) (rand : ℚ) : ℚ :=
  if statusCode = some 429 then
    match retryAfter with
    | some ra => ra * 1000
    | none => calculateDelay attempt options rand
  else
    calculateDelay attempt options rand

/-- Observable outcome of a `withRetry` run: the returned value or the
thrown error (`none` models the JavaScript `undefined` thrown when the loop
body never ran), the number of invocations of the operation, and the list
of slept delays in milliseconds. -/
inductive RetryOutcome (α : Type) where
  | ok (value : α) (invocations : Nat) (delays : List ℚ)
  | err (error : Option JsError) (invocations : Nat) (delays : List ℚ)
deriving DecidableEq

/-- The `for (let attempt = 1; attempt <= opts.maxAttempts; attempt++)`
loop of `withRetry`.  `fn n` is the outcome of the n-th invocation of the
operation, `rand n` the `Math.random()` draw used after attempt `n`. -/
def withRetryLoop {α : Type} (fn : Nat → Except JsError α)
    (options : RetryOptions) (rand : Nat → ℚ)
    (attempt : Nat) (lastError : Option JsError) (delays : List ℚ) :
    RetryOutcome α :=
  if hgt : options.maxAttempts < attempt then
    .err lastError (attempt - 1) delays
  else
    match fn attempt with
    | .ok v => .ok v attempt delays
    | .error e =>
      let sc := (extractStatus e).1
      let ra := (extractStatus e).2
      if nonRetryable sc then
        .err (some e) attempt delays
      else if heq : attempt = options.maxAttempts then
        .err (some e) attempt delays
      else
        withRetryLoop fn options rand (attempt + 1) (some e)
          (delays ++ [nextDelay sc ra attempt options (rand attempt)])
termination_by options.maxAttempts + 1 - attempt
decreasing_by omega

/-- Embedding of `withRetry` from `src/utils/retry.ts`: run the loop from
attempt 1 with no recorded error and no slept delays. -/
def withRetry {α : Type} (fn : Nat → Except JsError α)
    (options : RetryOptions) (rand : Nat → ℚ) : RetryOutcome α :=
  withRetryLoop fn options rand 1 none []

/-! ## Claim C1 -/

/-- Claim C1: `shouldRetry s` is true exactly when `s = 429` or
`500 ≤ s ≤ 599`; in particular it is false on every code in `400..499`
other than 429. -/
theorem shouldRetry_iff_429_or_5xx (s : Int) :
    (shouldRetry s = true ↔ s = 429 ∨ (500 ≤ s ∧ s ≤ 599)) ∧
    (400 ≤ s → s ≤ 499 → s ≠ 429 → shouldRetry s = false) := by
  simp only [shouldRetry, Bool.or_eq_true, Bool.and_eq_true, beq_iff_eq,
    decide_eq_true_eq, Bool.or_eq_false_iff, Bool.and_eq_false_iff,
    decide_eq_false_iff_not, beq_eq_false_iff_ne, ne_eq]
  constructor
  · omega
  · intro h1 h2 h3
    omega

/-- Witness for C1 at concrete status codes 429, 503 and 404. -/
theorem shouldRetry_iff_429_or_5xx_witness :
    shouldRetry 404 = false ∧ shouldRetry 429 = true ∧ shouldRetry 503 = true := by
  refine ⟨(shouldRetry_iff_429_or_5xx 404).2 (by decide) (by decide) (by decide),
    (shouldRetry_iff_429_or_5xx 429).1.mpr (Or.inl rfl),
    (shouldRetry_iff_429_or_5xx 503).1.mpr (Or.inr (by decide))⟩

/-! ## Claim C5 -/

/-- Claim C5: with `u` the `Math.random()` draw, `calculateDelay` equals
`max 0 (base + r)` where `base = baseDelayMs * factor^(attempt-1)` and
`r = (2u-1) * jitter` with `jitter = base * jitterPercent / 100`; `r` lies in
`[-jitter, jitter]`; for `jitterPercent = 15` the delay lies in
`base * [0.85, 1.15]`, and `jitterPercent = 0` makes the delay exactly
`base`. -/
theorem calculateDelay_spec (attempt : Nat) (options : RetryOptions) (u : ℚ)
    (hu0 : 0 ≤ u) (hu1 : u ≤ 1)
    (hb : 0 ≤ options.baseDelayMs) (hf : 0 ≤ options.factor)
    (hj : 0 ≤ options.jitterPercent) :
    calculateDelay attempt options u =
      max 0 (options.baseDelayMs * options.factor ^ (attempt - 1) +
        (u * 2 - 1) *
          ((options.baseDelayMs * options.factor ^ (attempt - 1) *
            options.jitterPercent) / 100)) ∧
    -((options.baseDelayMs * options.factor ^ (attempt - 1) *
        options.jitterPercent) / 100) ≤
      (u * 2 - 1) *
        ((options.baseDelayMs * options.factor ^ (attempt - 1) *
          options.jitterPercent) / 100) ∧
    (u * 2 - 1) *
        ((options.baseDelayMs * options.factor ^ (attempt - 1) *
          options.jitterPercent) / 100) ≤
      (options.baseDelayMs * options.factor ^ (attempt - 1) *
        options.jitterPercent) / 100 ∧
    (options.jitterPercent = 15 →
      options.baseDelayMs * options.factor ^ (attempt - 1) * (85 / 100) ≤
          calculateDelay attempt options u ∧
        calculateDelay attempt options u ≤
          options.baseDelayMs * options.factor ^ (attempt - 1) * (115 / 100)) ∧
    (options.jitterPercent = 0 →
      calculateDelay attempt options u =
        options.baseDelayMs * options.factor ^ (attempt - 1)) := by
  set b : ℚ := options.baseDelayMs * options.factor ^ (attempt - 1) with hbdef
  have hbpos : 0 ≤ b := mul_nonneg hb (pow_nonneg hf _)
  have hjit : 0 ≤ (b * options.jitterPercent) / 100 :=
    div_nonneg (mul_nonneg hbpos hj) (by norm_num)
  refine ⟨rfl, ?_, ?_, ?_, ?_⟩
  · nlinarith [hjit, hu0, hu1]
  · nlinarith [hjit, hu0, hu1]
  · intro h15
    have hx : 0 ≤ b + (u * 2 - 1) * ((b * options.jitterPercent) / 100) := by
      rw [h15]; nlinarith [hbpos, hu0, hu1]
    constructor
    · show b * (85 / 100) ≤ calculateDelay attempt options u
      unfold calculateDelay
      rw [← hbdef, max_eq_right hx, h15]
      nlinarith [hbpos, hu0, hu1]
    · show calculateDelay attempt options u ≤ b * (115 / 100)
      unfold calculateDelay
      rw [← hbdef, max_eq_right hx, h15]
      nlinarith [hbpos, hu0, hu1]
  · intro h0
    show calculateDelay attempt options u = b
    unfold calculateDelay
    rw [← hbdef, h0]
    simp
    exact hbpos

/-! ## Helper lemmas about the retry loop -/

/-- A status code in `400..499` other than 429 is not retryable. -/
theorem shouldRetry_eq_false_of_4xx (sc : Int) (h4 : 400 ≤ sc) (h5 : sc ≤ 499)
    (hne : sc ≠ 429) : shouldRetry sc = false := by
  simp only [shouldRetry, Bool.or_eq_false_iff, Bool.and_eq_false_iff,
    beq_eq_false_iff_ne, ne_eq, decide_eq_false_iff_not]
  omega

/-- The guard `nonRetryable` is false when every carried status code is
retryable (in particular when no status code is carried). -/
theorem nonRetryable_eq_false (o : Option Int)
    (h : ∀ sc, o = some sc → shouldRetry sc = true) : nonRetryable o = false := by
  cases o with
  | none => rfl
  | some sc => simp [nonRetryable, h sc rfl]

/-- One non-final, retryable iteration of the loop: record the error, sleep
`nextDelay`, move to the next attempt. -/
theorem withRetryLoop_step {α : Type} (fn : Nat → Except JsError α)
    (options : RetryOptions) (rand : Nat → ℚ) (attempt : Nat)
    (lastError : Option JsError) (delays : List ℚ) (e : JsError)
    (hle : attempt ≤ options.maxAttempts)
    (hfn : fn attempt = .error e)
    (hret : nonRetryable (extractStatus e).1 = false)
    (hne : attempt ≠ options.maxAttempts) :
    withRetryLoop fn options rand attempt lastError delays =
      withRetryLoop fn options rand (attempt + 1) (some e)
        (delays ++
          [nextDelay (extractStatus e).1 (extractStatus e).2 attempt options
            (rand attempt)]) := by
  rw [withRetryLoop.eq_def]
  rw [dif_neg (by omega), hfn]
  simp only [hret, Bool.false_eq_true, if_false, dif_neg hne]

/-- The final attempt of an exhausting run: the loop breaks and rethrows
the error of that attempt without computing a delay. -/
theorem withRetryLoop_final {α : Type} (fn : Nat → Except JsError α)
    (options : RetryOptions) (rand : Nat → ℚ)
    (lastError : Option JsError) (delays : List ℚ) (e : JsError)
    (hfn : fn options.maxAttempts = .error e)
    (hret : nonRetryable (extractStatus e).1 = false)
    (hpos : 1 ≤ options.maxAttempts) :
    withRetryLoop fn options rand options.maxAttempts lastError delays =
      .err (some e) options.maxAttempts delays := by
  rw [withRetryLoop.eq_def]
  rw [dif_neg (by omega), hfn]
  simp [hret]

/-- Exhausting run of the loop: if every attempt from `attempt` to
`maxAttempts` fails retryably, the loop performs them all, sleeps once
between consecutive attempts, and ends with the last error. -/
theorem withRetryLoop_exhausts {α : Type} (fn : Nat → Except JsError α)
    (options : RetryOptions) (rand : Nat → ℚ) (err : Nat → JsError)
    (hfail : ∀ n, fn n = .error (err n))
    (hret : ∀ n sc, (extractStatus (err n)).1 = some sc → shouldRetry sc = true) :
    ∀ (k attempt : Nat) (lastError : Option JsError) (delays : List ℚ),
      1 ≤ attempt → attempt + k = options.maxAttempts →
      ∃ tail : List ℚ,
        withRetryLoop fn options rand attempt lastError delays =
          .err (some (err options.maxAttempts)) options.maxAttempts
            (delays ++ tail) ∧
        tail.length = k := by
  intro k
  induction k with
  | zero =>
    intro attempt lastError delays hpos hsum
    have hmax : attempt = options.maxAttempts := by omega
    subst hmax
    refine ⟨[], ?_, rfl⟩
    rw [List.append_nil]
    exact withRetryLoop_final fn options rand lastError delays
      (err options.maxAttempts) (hfail options.maxAttempts)
      (nonRetryable_eq_false _ (hret options.maxAttempts)) hpos
  | succ k ih =>
    intro attempt lastError delays hpos hsum
    rw [withRetryLoop_step fn options rand attempt lastError delays (err attempt)
      (by omega) (hfail attempt) (nonRetryable_eq_false _ (hret attempt))
      (by omega)]
    obtain ⟨tail, htail, hlen⟩ := ih (attempt + 1) (some (err attempt))
      (delays ++
        [nextDelay (extractStatus (err attempt)).1 (extractStatus (err attempt)).2
          attempt options (rand attempt)])
      (by omega) (by omega)
    refine ⟨nextDelay (extractStatus (err attempt)).1 (extractStatus (err attempt)).2
      attempt options (rand attempt) :: tail, ?_, by simp [hlen]⟩
    rw [htail, List.append_assoc, List.singleton_append]

/-! ## Claim C2 -/

/-- Claim C2: when every attempt fails with a retryable error (status 429
or 5xx via either field, or no status code at all), `withRetry` invokes the
operation exactly `maxAttempts` times, sleeps exactly `maxAttempts - 1`
times (never after the final attempt), and rethrows the error of the final
attempt itself, unwrapped. -/
theorem withRetry_exhausts_attempts {α : Type} (fn : Nat → Except JsError α)
    (options : RetryOptions) (rand : Nat → ℚ) (err : Nat → JsError)
    (hmax : 1 ≤ options.maxAttempts)
    (hfail : ∀ n, fn n = .error (err n))
    (hret : ∀ n sc, (extractStatus (err n)).1 = some sc → shouldRetry sc = true) :
    ∃ delays : List ℚ,
      withRetry fn options rand =
        .err (some (err options.maxAttempts)) options.maxAttempts delays ∧
      delays.length = options.maxAttempts - 1 := by
  obtain ⟨tail, htail, hlen⟩ := withRetryLoop_exhausts fn options rand err hfail hret
    (options.maxAttempts - 1) 1 none [] (by omega) (by omega)
  exact ⟨tail, by simpa [withRetry] using htail, hlen⟩

/-- Witness for C2: a 503-failing operation under the default options is
invoked 5 times and sleeps 4 times. -/
theorem withRetry_exhausts_attempts_witness :
    ∃ delays : List ℚ,
      withRetry (fun _ => (.error { statusCode := some 503 } : Except JsError Unit))
          {} (fun _ => 0) =
        .err (some { statusCode := some 503 }) 5 delays ∧
      delays.length = 4 :=
  withRetry_exhausts_attempts _ {} _ (fun _ => { statusCode := some 503 })
    (by decide) (fun _ => rfl)
    (fun n sc h => by
      have h503 : sc = 503 := by
        have : some (503 : Int) = some sc := h
        exact (Option.some_inj.mp this).symm
      subst h503
      decide)

/-! ## Claim C3 -/

/-- Claim C3: a non-final attempt failing with `statusCode = 429` and a
defined `retryAfter = r` makes the loop sleep exactly `r * 1000`
milliseconds before the next attempt, with no jitter and independently of
`jitterPercent`, `baseDelayMs`, `factor` and the random draw. -/
theorem withRetry_retryAfter_exact {α : Type} (fn : Nat → Except JsError α)
    (options : RetryOptions) (rand : Nat → ℚ) (attempt : Nat)
    (lastError : Option JsError) (delays : List ℚ) (e : JsError) (r : ℚ)
    (h1 : 1 ≤ attempt) (h2 : attempt < options.maxAttempts)
    (hfn : fn attempt = .error e)
    (hsc : e.statusCode = some 429) (hra : e.retryAfter = some r) :
    withRetryLoop fn options rand attempt lastError delays =
      withRetryLoop fn options rand (attempt + 1) (some e)
        (delays ++ [r * 1000]) := by
  have hex : extractStatus e = (some 429, some r) := by
    simp [extractStatus, hsc, hra]
  rw [withRetryLoop_step fn options rand attempt lastError delays e (by omega) hfn
    (by simp [hex, nonRetryable, shouldRetry]) (by omega), hex]
  simp [nextDelay]

/-- Witness for C3: a 429 with wait hint 2 sleeps exactly 2000 ms. -/
theorem withRetry_retryAfter_exact_witness :
    withRetryLoop
        (fun _ => (.error { statusCode := some 429, retryAfter := some 2 } :
          Except JsError Unit)) {} (fun _ => 0) 1 none [] =
      withRetryLoop
        (fun _ => .error { statusCode := some 429, retryAfter := some 2 })
        {} (fun _ => 0) 2 (some { statusCode := some 429, retryAfter := some 2 })
        [2000] := by
  have h := withRetry_retryAfter_exact
    (fun _ => (.error { statusCode := some 429, retryAfter := some 2 } :
      Except JsError Unit)) {} (fun _ => 0) 1 none []
    { statusCode := some 429, retryAfter := some 2 } 2
    (by decide) (by decide) rfl rfl rfl
  have h2k : (2 : ℚ) * 1000 = 2000 := by norm_num
  rw [h2k] at h
  simpa using h

/-! ## Claim C4 -/

/-- Claim C4: a first attempt failing with a non-retryable 4xx status
(other than 429) makes `withRetry` stop after exactly one invocation, with
no delay slept, rethrowing the exact error object (status, message and
body untouched), regardless of the remaining attempt budget. -/
theorem withRetry_nonretryable_aborts {α : Type} (fn : Nat → Except JsError α)
    (options : RetryOptions) (rand : Nat → ℚ) (e : JsError) (sc : Int)
    (hmax : 1 ≤ options.maxAttempts)
    (hfn : fn 1 = .error e)
    (hsc : (extractStatus e).1 = some sc)
    (h4 : 400 ≤ sc) (h5 : sc ≤ 499) (hne : sc ≠ 429) :
    withRetry fn options rand = .err (some e) 1 [] := by
  have hbad : shouldRetry sc = false := shouldRetry_eq_false_of_4xx sc h4 h5 hne
  unfold withRetry
  rw [withRetryLoop.eq_def]
  rw [dif_neg (by omega), hfn]
  simp [hsc, nonRetryable, hbad]

/-- Witness for C4: a 404 error with a body aborts after one attempt with
the error intact. -/
theorem withRetry_nonretryable_aborts_witness :
    withRetry
        (fun _ => (.error { statusCode := some 404, response := some "missing" } :
          Except JsError Unit)) {} (fun _ => 0) =
      .err (some { statusCode := some 404, response := some "missing" }) 1 [] :=
  withRetry_nonretryable_aborts _ {} _
    { statusCode := some 404, response := some "missing" } 404
    (by decide) rfl rfl (by decide) (by decide) (by decide)

/-! ## Claim C10 -/

/-- Claim C10: an error exposing its code via a `status` field (no
`statusCode` field) has that code used for the retry decision, but its
`retryAfter` hint is never read: even with `status = 429` and a defined
`retryAfter`, the slept delay is the jittered exponential backoff, not
`retryAfter * 1000`. -/
theorem withRetry_status_field_ignores_retryAfter {α : Type}
    (fn : Nat → Except JsError α) (options : RetryOptions) (rand : Nat → ℚ)
    (attempt : Nat) (lastError : Option JsError) (delays : List ℚ)
    (e : JsError) (r : ℚ)
    (h1 : 1 ≤ attempt) (h2 : attempt < options.maxAttempts)
    (hfn : fn attempt = .error e)
    (hnosc : e.statusCode = none) (hst : e.status = some 429)
    (hra : e.retryAfter = some r) :
    extractStatus e = (some 429, none) ∧
    withRetryLoop fn options rand attempt lastError delays =
      withRetryLoop fn options rand (attempt + 1) (some e)
        (delays ++ [calculateDelay attempt options (rand attempt)]) := by
  have hex : extractStatus e = (some 429, none) := by
    simp [extractStatus, hnosc, hst]
  refine ⟨hex, ?_⟩
  rw [withRetryLoop_step fn options rand attempt lastError delays e (by omega) hfn
    (by simp [hex, nonRetryable, shouldRetry]) (by omega), hex]
  simp [nextDelay]

/-- Witness for C10: a `status: 429` error carrying `retryAfter = 7` still
sleeps the backoff delay, and its hint is dropped by the field probing. -/
theorem withRetry_status_field_ignores_retryAfter_witness :
    extractStatus { status := some 429, retryAfter := some 7 } =
      (some 429, none) ∧
    withRetryLoop
        (fun _ => (.error { status := some 429, retryAfter := some 7 } :
          Except JsError Unit)) {} (fun _ => 0) 1 none [] =
      withRetryLoop
        (fun _ => .error { status := some 429, retryAfter := some 7 })
        {} (fun _ => 0) 2 (some { status := some 429, retryAfter := some 7 })
        [calculateDelay 1 {} 0] := by
  have h := withRetry_status_field_ignores_retryAfter
    (fun _ => (.error { status := some 429, retryAfter := some 7 } :
      Except JsError Unit)) {} (fun _ => 0) 1 none []
    { status := some 429, retryAfter := some 7 } 7
    (by decide) (by decide) rfl rfl rfl rfl
  simpa using h

/-- Witness for C5 with the default options and `u = 1/2`. -/
theorem calculateDelay_spec_witness :
    ({} : RetryOptions).baseDelayMs * ({} : RetryOptions).factor ^ (2 - 1) * (85 / 100) ≤
        calculateDelay 2 {} (1 / 2) ∧
      calculateDelay 2 {} (1 / 2) ≤
        ({} : RetryOptions).baseDelayMs * ({} : RetryOptions).factor ^ (2 - 1) * (115 / 100) :=
  (calculateDelay_spec 2 {} (1 / 2) (by norm_num) (by norm_num)
    (by norm_num [RetryOptions.baseDelayMs]) (by norm_num [RetryOptions.factor])
    (by norm_num [RetryOptions.jitterPercent])).2.2.2.1
    (by norm_num [RetryOptions.jitterPercent])

/-! ## The ServiceNow client: authentication header -/

/-- The three auth modes of type `AuthMode` in the client source. -/
inductive AuthMode where
  | basic
  | oauth
  | apiKey
deriving DecidableEq

/-- The credential-bearing fields of the environment configuration as read
by `buildAuthHeader`; `none` models an unset environment variable. -/
structure EnvConfig where
  SERVICE_NOW_USER : Option String := none
  SERVICE_NOW_PASSWORD : Option String := none
  SERVICE_NOW_CLIENT_ID : Option String := none
  SERVICE_NOW_CLIENT_SECRET : Option String := none
  SERVICE_NOW_API_KEY : Option String := none
deriving DecidableEq

/-- JavaScript template-literal interpolation: `undefined` prints as the
string `"undefined"`. -/
def jsInterp : Option String → String
  | none => "undefined"
  | some s => s

/-- JavaScript falsiness of an optional string (`!value`): `undefined` and
the empty string are falsy. -/
def jsFalsy : Option String → Bool
  | none => true
  | some s => s == ""

/-- UTF-8 encoding of one character as a list of byte values. -/
def utf8Bytes (c : Char) : List Nat :=
  let n := c.toNat
  if n < 128 then [n]
  else if n < 2048 then [192 + n / 64, 128 + n % 64]
  else if n < 65536 then [224 + n / 4096, 128 + (n / 64) % 64, 128 + n % 64]
  else [240 + n / 262144, 128 + (n / 4096) % 64, 128 + (n / 64) % 64,
    128 + n % 64]

/-- UTF-8 encoding of a string as a list of byte values. -/
def stringBytes (s : String) : List Nat :=
  (s.data.map utf8Bytes).flatten

/-- The base64 alphabet: index `n` (0..63) to its digit character. -/
def base64Char (n : Nat) : Char :=
  if n < 26 then Char.ofNat (65 + n)
  else if n < 52 then Char.ofNat (97 + (n - 26))
  else if n < 62 then Char.ofNat (48 + (n - 52))
  else if n = 62 then '+'
  else '/'

/-- Standard base64 of a byte list, processed in 3-byte groups with `=`
padding (the encoding `Buffer.from(s).toString('base64')` performs). -/
def base64Chunks : List Nat → String
  | [] => ""
  | [b1] =>
    String.mk [base64Char (b1 / 4), base64Char (b1 % 4 * 16), '=', '=']
  | [b1, b2] =>
    String.mk [base64Char (b1 / 4), base64Char (b1 % 4 * 16 + b2 / 16),
      base64Char (b2 % 16 * 4), '=']
  | b1 :: b2 :: b3 :: rest =>
    String.mk [base64Char (b1 / 4), base64Char (b1 % 4 * 16 + b2 / 16),
      base64Char (b2 % 16 * 4 + b3 / 64), base64Char (b3 % 64)] ++
      base64Chunks rest

/-- `Buffer.from(s).toString('base64')`: base64 of the UTF-8 bytes. -/
def base64Encode (s : String) : String :=
  base64Chunks (stringBytes s)

/-- Embedding of `ServiceNowClient.buildAuthHeader`: `basic` interpolates
the username and password into `Basic base64(user:password)` with no
credential check; `oauth` throws when the client id or secret is falsy,
otherwise produces `Basic base64(id:secret)`; `apiKey` throws when the key
is falsy, otherwise produces `Bearer key`. -/
def buildAuthHeader (authMode : AuthMode) (config : EnvConfig) :
    Except String String :=
  match authMode with
  | .basic =>
    .ok ("Basic " ++ base64Encode
      (jsInterp config.SERVICE_NOW_USER ++ ":" ++
        jsInterp config.SERVICE_NOW_PASSWORD))
  | .oauth =>
    if jsFalsy config.SERVICE_NOW_CLIENT_ID ||
        jsFalsy config.SERVICE_NOW_CLIENT_SECRET then
      .error "OAuth requires SERVICE_NOW_CLIENT_ID and SERVICE_NOW_CLIENT_SECRET"
    else
      .ok ("Basic " ++ base64Encode
        (jsInterp config.SERVICE_NOW_CLIENT_ID ++ ":" ++
          jsInterp config.SERVICE_NOW_CLIENT_SECRET))
  | .apiKey =>
    if jsFalsy config.SERVICE_NOW_API_KEY then
      .error "API Key auth requires SERVICE_NOW_API_KEY"
    else
      .ok ("Bearer " ++ jsInterp config.SERVICE_NOW_API_KEY)

/-! ## The ServiceNow client: query string -/

/-- The characters `encodeURIComponent` leaves unescaped: ASCII letters,
digits, and `- _ . ! ~ * ' ( )`. -/
def isUnreservedURIChar (c : Char) : Bool :=
  (c ≥ 'A' && c ≤ 'Z') || (c ≥ 'a' && c ≤ 'z') || (c ≥ '0' && c ≤ '9') ||
  c == '-' || c == '_' || c == '.' || c == '!' || c == '~' || c == '*' ||
  c == Char.ofNat 39 || c == '(' || c == ')'

/-- Uppercase hexadecimal digit for `n < 16`. -/
def hexDigit (n : Nat) : Char :=
  if n < 10 then Char.ofNat (48 + n) else Char.ofNat (55 + n)

/-- Percent-escape of one byte value: `%` followed by two uppercase hex
digits. -/
def percentByte (n : Nat) : String :=
  String.mk ['%', hexDigit (n / 16), hexDigit (n % 16)]

/-- One character of `encodeURIComponent` output: kept verbatim when
unreserved, otherwise each of its UTF-8 bytes is percent-escaped. -/
def encodeChar (c : Char) : String :=
  if isUnreservedURIChar c then String.mk [c]
  else String.join ((utf8Bytes c).map percentByte)

/-- Embedding of JavaScript `encodeURIComponent`. -/
def encodeURIComponent (s : String) : String :=
  String.join (s.data.map encodeChar)

/-- The `TableApiParams` interface: all five query parameters optional. -/
structure TableApiParams where
  sysparm_fields : Option String := none
  sysparm_limit : Option Int := none
  sysparm_offset : Option Int := none
  sysparm_query : Option String := none
  sysparm_display_value : Option Bool := none
deriving DecidableEq

/-- Value part of the always-emitted `sysparm_display_value` token:
`"false"` when the parameter is absent, its literal boolean otherwise. -/
def displayValueString (params : TableApiParams) : String :=
  match params.sysparm_display_value with
  | some b => toString b
  | none => "false"

/-- The first four (conditional) tokens pushed onto `queryParts` by
`buildQueryString`, in source order.  `sysparm_fields` and `sysparm_query`
are guarded by JavaScript truthiness (absent or empty string means no
token); `sysparm_limit` and `sysparm_offset` only by presence. -/
def frontParts (params : TableApiParams) : List String :=
  (match params.sysparm_fields with
    | some f => if f = "" then [] else ["sysparm_fields=" ++ encodeURIComponent f]
    | none => []) ++
  (match params.sysparm_limit with
    | some n => ["sysparm_limit=" ++ toString n]
    | none => []) ++
  (match params.sysparm_offset with
    | some n => ["sysparm_offset=" ++ toString n]
    | none => []) ++
  (match params.sysparm_query with
    | some q => if q = "" then [] else ["sysparm_query=" ++ encodeURIComponent q]
    | none => [])

/-- The full `queryParts` array: the conditional tokens followed by the
unconditional `sysparm_display_value` token. -/
def queryParts (params : TableApiParams) : List String :=
  frontParts params ++ ["sysparm_display_value=" ++ displayValueString params]

/-- `queryParts.join('&')`. -/
def joinAmp : List String → String
  | [] => ""
  | [s] => s
  | s :: t :: rest => s ++ "&" ++ joinAmp (t :: rest)

/-- Embedding of `ServiceNowClient.buildQueryString`: `?` plus the
`&`-joined tokens when any token exists, the empty string otherwise. -/
def buildQueryString (params : TableApiParams) : String :=
  if (queryParts params).length > 0 then "?" ++ joinAmp (queryParts params)
  else ""

/-! ## Claim C6 -/

/-- Counterexample to C6 as stated: constructing in `basic` mode with both
the username and the password missing does not fail — `buildAuthHeader`
performs no credential check in `basic` mode and happily encodes the
interpolated placeholder text `undefined:undefined`. -/
theorem buildAuthHeader_basic_missing_succeeds :
    buildAuthHeader AuthMode.basic {} =
      Except.ok "Basic dW5kZWZpbmVkOnVuZGVmaW5lZA==" := by
  rfl

/-- Amended C6: `oauth` and `apiKey` modes fail at construction, before
any network activity, when a required credential is absent (or empty);
`basic` mode never fails — it builds a header from whatever the
interpolation yields. -/
theorem buildAuthHeader_credential_checks (config : EnvConfig) :
    (∃ h, buildAuthHeader AuthMode.basic config = Except.ok h) ∧
    ((jsFalsy config.SERVICE_NOW_CLIENT_ID ||
        jsFalsy config.SERVICE_NOW_CLIENT_SECRET) = true →
      ∃ m, buildAuthHeader AuthMode.oauth config = Except.error m) ∧
    (jsFalsy config.SERVICE_NOW_API_KEY = true →
      ∃ m, buildAuthHeader AuthMode.apiKey config = Except.error m) := by
  refine ⟨⟨_, rfl⟩, ?_, ?_⟩
  · intro h
    exact ⟨"OAuth requires SERVICE_NOW_CLIENT_ID and SERVICE_NOW_CLIENT_SECRET",
      by simp [buildAuthHeader, h]⟩
  · intro h
    exact ⟨"API Key auth requires SERVICE_NOW_API_KEY",
      by simp [buildAuthHeader, h]⟩

/-- Witness for the amended C6: `oauth` and `apiKey` modes fail on the
all-unset configuration. -/
theorem buildAuthHeader_credential_checks_witness :
    (∃ m, buildAuthHeader AuthMode.oauth {} = Except.error m) ∧
    (∃ m, buildAuthHeader AuthMode.apiKey {} = Except.error m) :=
  ⟨(buildAuthHeader_credential_checks {}).2.1 rfl,
   (buildAuthHeader_credential_checks {}).2.2 rfl⟩

/-! ## Claim C7 -/

/-- Claim C7: `buildQueryString` on `{limit: 10, filter: "a>b"}` (with
`sysparm_display_value` unset) yields exactly
`?sysparm_limit=10&sysparm_query=a%3Eb&sysparm_display_value=false`: the
`>` is percent-encoded, the fields/offset tokens are absent, and the
emission order is fields, limit, offset, filter, displayValue. -/
theorem buildQueryString_limit_filter_example :
    buildQueryString { sysparm_limit := some 10, sysparm_query := some "a>b" } =
      "?sysparm_limit=10&sysparm_query=a%3Eb&sysparm_display_value=false" := by
  rfl

/-! ## Claim C8 -/

/-- The `&`-join of a token list ending in `tok` ends in `tok`. -/
theorem joinAmp_concat_last (l : List String) (tok : String) :
    ∃ pre : String, joinAmp (l ++ [tok]) = pre ++ tok := by
  induction l with
  | nil => exact ⟨"", by simp [joinAmp]⟩
  | cons a l ih =>
    cases l with
    | nil => exact ⟨a ++ "&", by simp [joinAmp, String.append_assoc]⟩
    | cons b rest =>
      obtain ⟨pre, hpre⟩ := ih
      refine ⟨a ++ "&" ++ pre, ?_⟩
      have hstep : joinAmp ((a :: b :: rest) ++ [tok]) =
          a ++ "&" ++ joinAmp ((b :: rest) ++ [tok]) := by
        simp [joinAmp]
      rw [hstep, hpre]
      simp [String.append_assoc]

/-- Claim C8: `buildQueryString` never returns the empty string — its
output always starts with `?` and always ends with a
`sysparm_display_value` token whose value is `"false"` when the parameter
is absent and the literal boolean otherwise; the all-absent input yields
exactly `?sysparm_display_value=false`. -/
theorem buildQueryString_always_display_value :
    (∀ params : TableApiParams, ∃ s : String,
      buildQueryString params =
        "?" ++ (s ++ ("sysparm_display_value=" ++ displayValueString params))) ∧
    buildQueryString {} = "?sysparm_display_value=false" := by
  constructor
  · intro params
    obtain ⟨pre, hpre⟩ := joinAmp_concat_last (frontParts params)
      ("sysparm_display_value=" ++ displayValueString params)
    refine ⟨pre, ?_⟩
    unfold buildQueryString
    rw [if_pos (by simp [queryParts])]
    rw [show queryParts params = frontParts params ++
      ["sysparm_display_value=" ++ displayValueString params] from rfl, hpre]
  · rfl

/-! ## Claim C9 -/

/-- Claim C9: a present-but-empty `sysparm_fields` or `sysparm_query` is
treated exactly as an absent one (its token is omitted), whereas
`sysparm_limit = 0` and `sysparm_offset = 0` are emitted as
`sysparm_limit=0` and `sysparm_offset=0`. -/
theorem buildQueryString_empty_vs_zero :
    (∀ params : TableApiParams, params.sysparm_fields = some "" →
      buildQueryString params =
        buildQueryString { params with sysparm_fields := none }) ∧
    (∀ params : TableApiParams, params.sysparm_query = some "" →
      buildQueryString params =
        buildQueryString { params with sysparm_query := none }) ∧
    (∀ params : TableApiParams, params.sysparm_limit = some 0 →
      "sysparm_limit=0" ∈ queryParts params) ∧
    (∀ params : TableApiParams, params.sysparm_offset = some 0 →
      "sysparm_offset=0" ∈ queryParts params) := by
  refine ⟨?_, ?_, ?_, ?_⟩
  · intro params hf
    simp [buildQueryString, queryParts, frontParts, displayValueString, hf]
  · intro params hq
    simp [buildQueryString, queryParts, frontParts, displayValueString, hq]
  · intro params hl
    have h0 : "sysparm_limit=" ++ toString (0 : Int) = "sysparm_limit=0" := rfl
    simp [queryParts, frontParts, hl, h0]
  · intro params ho
    have h0 : "sysparm_offset=" ++ toString (0 : Int) = "sysparm_offset=0" := rfl
    simp [queryParts, frontParts, ho, h0]

/-- Witness for C9: an empty-string fields parameter produces the same
query string as an absent one, and a zero limit is emitted. -/
theorem buildQueryString_empty_vs_zero_witness :
    buildQueryString { sysparm_fields := some "", sysparm_query := some "x" } =
      buildQueryString { sysparm_fields := none, sysparm_query := some "x" } ∧
    "sysparm_limit=0" ∈ queryParts { sysparm_limit := some 0 } :=
  ⟨buildQueryString_empty_vs_zero.1 _ rfl,
   buildQueryString_empty_vs_zero.2.2.1 _ rfl⟩

end SNClient
